import Mathlib

/-!
Verification development for the Streamlit + Strands chat application
(`src/app.py`).  The file shallowly embeds the three pieces of internal
logic the specification describes:

* the event collector `callback_handler` (app.py lines 44-142), which folds
  the agent's callback events into per-turn session-state buffers;
* the transcript assembler (app.py lines 223-295): per-submission buffer
  reset, the blocking agent call, and the construction and appending of the
  assistant `message_data` record;
* the replay renderer (app.py lines 160-211), which turns a stored message
  into an ordered sequence of display instructions.

Python dictionaries with string keys are embedded as association lists over
a JSON-like `Value` type; `kwargs` membership tests (`"k" in d`) become
`dmem`, `d.get(k)` becomes `(dget? d k).getD Value.null`, and bracket
access `d[k]` on a possibly missing key becomes an explicit `PyErr.keyError`.
Exceptions raised by the Python code are modelled with `Except PyErr`.
-/

/-- A JSON-like Python value: strings, integers, booleans, lists,
string-keyed dictionaries, and `None`. -/
inductive Value where
  | str : String → Value
  | int : Int → Value
  | bool : Bool → Value
  | arr : List Value → Value
  | obj : List (String × Value) → Value
  | null : Value

/-- A Python dictionary with string keys, embedded as an association list
(first binding of a key wins, matching unique-key dictionaries). -/
abbrev Dict := List (String × Value)

/-- Lookup of a key in a dictionary: `d[k]` when the key is present. -/
def dget? (d : Dict) (k : String) : Option Value :=
  (d.find? (fun p => p.1 == k)).map (fun p => p.2)

/-- Python membership test `k in d`. -/
def dmem (d : Dict) (k : String) : Bool :=
  (d.find? (fun p => p.1 == k)).isSome

/-- Python truthiness of a value (`if v:`). -/
def Value.truthy : Value → Bool
  | .str s => s != ""
  | .int n => n != 0
  | .bool b => b
  | .arr l => !l.isEmpty
  | .obj l => !l.isEmpty
  | .null => false

/-- Exceptions the embedded Python code can raise: `KeyError` from bracket
access on a missing key, and `TypeError` for an operation applied to a value
of the wrong shape (string concatenation with a non-string, iteration or
field access on a non-list / non-dictionary). -/
inductive PyErr where
  | keyError : String → PyErr
  | typeError : PyErr

/-- The `tool_info` record built at app.py lines 81-85 from a completed
`toolUse` content element. -/
structure ToolInfo where
  name : Value
  input : Value
  tool_use_id : Value

/-- The `result_info` record built at app.py lines 107-110 from a
`toolResult` content element: `status` is `result.get("status")` (so
`Value.null` when the field is absent) and `content` is
`result.get("content", [])`. -/
structure ResultInfo where
  status : Value
  content : Value

/-- One entry of `st.session_state.conversation_flow`: the tagged dictionaries
appended at app.py lines 72-75, 93-96 and 132-135. -/
inductive FlowItem where
  | text : Value → FlowItem
  | tool_call : ToolInfo → FlowItem
  | tool_result : ResultInfo → FlowItem

/-- The per-turn session-state buffers initialised at app.py lines 37-42 and
reset at lines 256-261, in source order. -/
structure Buffers where
  accumulated_text : String
  current_message_tools : List ToolInfo
  current_message_results : List ResultInfo
  current_message_accumulated : String
  all_agent_text : String
  conversation_flow : List FlowItem

/-- The freshly reset buffer state (app.py lines 256-261). -/
def resetBuffers : Buffers :=
  { accumulated_text := ""
    current_message_tools := []
    current_message_results := []
    current_message_accumulated := ""
    all_agent_text := ""
    conversation_flow := [] }

/-- Python equality test `message.get("role") == r` for a string literal `r`:
true exactly when the key is present and holds that string. -/
def roleIs (m : Dict) (r : String) : Bool :=
  match dget? m "role" with
  | some (Value.str s) => s == r
  | _ => false

/-- One iteration of the assistant-content loop (app.py lines 65-99):
a `text` element appends a flow item; a `toolUse` element builds `tool_info`
with bracket accesses (`KeyError` when `name`, `input` or `toolUseId` is
missing) and appends both a flow item and a `current_message_tools` entry;
any other dictionary element is skipped. -/
def processAssistantContent (content : Value) (b : Buffers) : Except PyErr Buffers :=
  match content with
  | Value.obj c =>
    if dmem c "text" then
      Except.ok { b with conversation_flow :=
        b.conversation_flow ++ [FlowItem.text ((dget? c "text").getD Value.null)] }
    else if dmem c "toolUse" then
      match (dget? c "toolUse").getD Value.null with
      | Value.obj tu =>
        match dget? tu "name" with
        | none => Except.error (PyErr.keyError "name")
        | some n =>
          match dget? tu "input" with
          | none => Except.error (PyErr.keyError "input")
          | some inp =>
            match dget? tu "toolUseId" with
            | none => Except.error (PyErr.keyError "toolUseId")
            | some tid =>
              Except.ok { b with
                conversation_flow :=
                  b.conversation_flow ++ [FlowItem.tool_call ⟨n, inp, tid⟩],
                current_message_tools :=
                  b.current_message_tools ++ [⟨n, inp, tid⟩] }
      | _ => Except.error PyErr.typeError
    else Except.ok b
  | _ => Except.error PyErr.typeError

/-- One iteration of the user-content loop (app.py lines 103-138): a
`toolResult` element builds `result_info` with tolerant `.get` accesses and
appends both a flow item and a `current_message_results` entry; any other
dictionary element is skipped. -/
def processUserContent (content : Value) (b : Buffers) : Except PyErr Buffers :=
  match content with
  | Value.obj c =>
    if dmem c "toolResult" then
      match (dget? c "toolResult").getD Value.null with
      | Value.obj r =>
        Except.ok { b with
          conversation_flow := b.conversation_flow ++
            [FlowItem.tool_result
              ⟨(dget? r "status").getD Value.null,
               (dget? r "content").getD (Value.arr [])⟩],
          current_message_results := b.current_message_results ++
            [⟨(dget? r "status").getD Value.null,
              (dget? r "content").getD (Value.arr [])⟩] }
      | _ => Except.error PyErr.typeError
    else Except.ok b
  | _ => Except.error PyErr.typeError

/-- The `for content in message["content"]` loop body applied in order; a
raised exception aborts the remaining iterations. -/
def foldContents (f : Value → Buffers → Except PyErr Buffers) :
    List Value → Buffers → Except PyErr Buffers
  | [], b => Except.ok b
  | c :: cs, b =>
    match f c b with
    | Except.ok b2 => foldContents f cs b2
    | Except.error e => Except.error e

/-- Iterating `message["content"]`: requires a list value. -/
def iterContents (f : Value → Buffers → Except PyErr Buffers)
    (v : Value) (b : Buffers) : Except PyErr Buffers :=
  match v with
  | Value.arr items => foldContents f items b
  | _ => Except.error PyErr.typeError

/-- The completed-message branch of the callback (app.py lines 59-138):
dispatch on `message.get("role")` with a required `content` key. -/
def handleMessage (message : Value) (b : Buffers) : Except PyErr Buffers :=
  match message with
  | Value.obj m =>
    if roleIs m "assistant" && dmem m "content" then
      iterContents processAssistantContent ((dget? m "content").getD Value.null) b
    else if roleIs m "user" && dmem m "content" then
      iterContents processUserContent ((dget? m "content").getD Value.null) b
    else Except.ok b
  | _ => Except.error PyErr.typeError

/-- The streaming callback `callback_handler` (app.py lines 44-142) acting on
the per-turn buffers.  The four `if`/`elif` shapes in source order: truthy
`"data"` (string concatenation onto both text buffers), `"current_tool_use"`
(explicitly ignored), `"message"` (structured message), otherwise a no-op. -/
def callback_handler (kwargs : Dict) (b : Buffers) : Except PyErr Buffers :=
  if ((dget? kwargs "data").getD Value.null).truthy then
    match (dget? kwargs "data").getD Value.null with
    | Value.str s =>
      Except.ok { b with
        accumulated_text := b.accumulated_text ++ s,
        all_agent_text := b.all_agent_text ++ s }
    | _ => Except.error PyErr.typeError
  else if dmem kwargs "current_tool_use" then
    Except.ok b
  else if dmem kwargs "message" then
    handleMessage ((dget? kwargs "message").getD Value.null) b
  else
    Except.ok b

/-- Feeding a sequence of callback events into the buffers; an exception
raised by an event stops processing and is reported alongside the buffer
state reached so far (session state survives the raise). -/
def processEvents : List Dict → Buffers → Buffers × Option PyErr
  | [], b => (b, none)
  | e :: es, b =>
    match callback_handler e b with
    | Except.ok b2 => processEvents es b2
    | Except.error err => (b, some err)

/-- A stored chat message (`st.session_state.messages` entry).  Optional
fields model key presence in the message dictionary: `message_data` always
stores `conversation_flow`, and stores `tools` / `results` only when the
corresponding buffer is non-empty (app.py lines 276-287). -/
structure Turn where
  role : String
  content : String
  conversation_flow : Option (List FlowItem)
  tools : Option (List ToolInfo)
  results : Option (List ResultInfo)

/-- The user message appended at app.py line 247. -/
def mkUserTurn (prompt : String) : Turn :=
  { role := "user", content := prompt,
    conversation_flow := none, tools := none, results := none }

/-- The assistant `message_data` record built at app.py lines 276-287 from
the buffers and `str(result)`: the displayed content falls back to the
stringified agent return value only when no raw text was accumulated. -/
def mkAssistantTurn (b : Buffers) (resultStr : String) : Turn :=
  { role := "assistant",
    content := if b.all_agent_text != "" then b.all_agent_text else resultStr,
    conversation_flow := some b.conversation_flow,
    tools :=
      if b.current_message_tools.isEmpty then none
      else some b.current_message_tools,
    results :=
      if b.current_message_results.isEmpty then none
      else some b.current_message_results }

/-- The session state the claims depend on: the transcript plus the
per-turn buffers. -/
structure AppState where
  messages : List Turn
  buffers : Buffers

/-- One chat submission (app.py lines 223-295, file handling aside): append
the user message, reset the buffers, run the blocking agent call — which
synchronously feeds `events` through `callback_handler` and then either
returns `resultStr` or raises — and on success append the assistant message.
The returned `Option PyErr` is the exception propagating out of the script
run, with the surviving session state. -/
def chat_submission (prompt : String) (events : List Dict)
    (outcome : Except PyErr String) (s : AppState) : AppState × Option PyErr :=
  let s1 : AppState := { s with messages := s.messages ++ [mkUserTurn prompt] }
  match processEvents events resetBuffers with
  | (b, some err) => ({ s1 with buffers := b }, some err)
  | (b, none) =>
    match outcome with
    | Except.error err => ({ s1 with buffers := b }, some err)
    | Except.ok resultStr =>
      ({ messages := s1.messages ++ [mkAssistantTurn b resultStr]
         buffers := b }, none)

/-- Clearing the chat history (app.py lines 302-304). -/
def clear_chat_history (s : AppState) : AppState :=
  { s with messages := [] }

/-- One display instruction emitted by the replay loop: `st.write`,
`st.info` (tool-call banner with the tool name), an `st.expander`,
`st.json`, `st.success`, `st.error` (with the displayed status value),
or `st.code`. -/
inductive Instr where
  | write : Value → Instr
  | banner : Value → Instr
  | expand : Instr
  | json : Value → Instr
  | success : Instr
  | errorBadge : Value → Instr
  | code : Value → Instr

/-- Python equality `v == "success"` for a stored status value. -/
def isSuccess (v : Value) : Bool :=
  match v with
  | Value.str s => s == "success"
  | _ => false

/-- Rendering the parts of a stored tool-result content list (app.py lines
181-185 and 207-211): `text` parts via `st.code`, `json` parts via
`st.json`, other parts skipped. -/
def renderResultContent (v : Value) : List Instr :=
  match v with
  | Value.arr items =>
    items.flatMap (fun item =>
      match item with
      | Value.obj d =>
        if dmem d "text" then [Instr.code ((dget? d "text").getD Value.null)]
        else if dmem d "json" then [Instr.json ((dget? d "json").getD Value.null)]
        else []
      | _ => [])
  | _ => []

/-- The replay status badge (app.py lines 174-177 and 201-204):
`st.success` when the stored status equals the string `success`, otherwise
`st.error` displaying the stored status. -/
def replayResultBadge (ri : ResultInfo) : Instr :=
  if isSuccess ri.status then Instr.success else Instr.errorBadge ri.status

/-- The live status badge emitted inside the callback (app.py lines
113-126): `st.success` when `result.get("status") == "success"`, otherwise
`st.error` displaying `result.get("status", "Failed")`. -/
def liveResultBadge (r : Dict) : Instr :=
  if isSuccess ((dget? r "status").getD Value.null) then Instr.success
  else Instr.errorBadge ((dget? r "status").getD (Value.str "Failed"))

/-- Replaying one stored flow item (app.py lines 164-185). -/
def renderFlowItem : FlowItem → List Instr
  | FlowItem.text v => [Instr.write v]
  | FlowItem.tool_call t => [Instr.banner t.name, Instr.expand, Instr.json t.input]
  | FlowItem.tool_result r =>
    [replayResultBadge r, Instr.expand] ++ renderResultContent r.content

/-- Replaying one stored message (app.py lines 160-211): assistant messages
carrying a `conversation_flow` key replay the flow in order; every other
message falls back to plain text (when non-empty) followed, for assistant
messages, by the legacy `tools` then `results` lists. -/
def renderTurn (t : Turn) : List Instr :=
  if t.role == "assistant" && t.conversation_flow.isSome then
    (t.conversation_flow.getD []).flatMap renderFlowItem
  else
    (if t.content != "" then [Instr.write (Value.str t.content)] else []) ++
    (if t.role == "assistant" then
      (match t.tools with
       | some ts => ts.flatMap
           (fun ti => [Instr.banner ti.name, Instr.expand, Instr.json ti.input])
       | none => []) ++
      (match t.results with
       | some rs => rs.flatMap
           (fun ri => [replayResultBadge ri, Instr.expand] ++
             renderResultContent ri.content)
       | none => [])
     else [])

/-- The tool-call component of a flow item, used to state that
`current_message_tools` is the flow filtered to its `tool_call` entries. -/
def toolOf : FlowItem → Option ToolInfo
  | FlowItem.tool_call t => some t
  | _ => none

/-- The tool-result component of a flow item. -/
def resOf : FlowItem → Option ResultInfo
  | FlowItem.tool_result r => some r
  | _ => none

/-- The flow items a single assistant content element contributes when it is
handled without raising. -/
def contentItemsA (c : Value) : List FlowItem :=
  match c with
  | Value.obj d =>
    if dmem d "text" then [FlowItem.text ((dget? d "text").getD Value.null)]
    else if dmem d "toolUse" then
      match (dget? d "toolUse").getD Value.null with
      | Value.obj tu =>
        match dget? tu "name", dget? tu "input", dget? tu "toolUseId" with
        | some n, some inp, some tid => [FlowItem.tool_call ⟨n, inp, tid⟩]
        | _, _, _ => []
      | _ => []
    else []
  | _ => []

/-- The flow items a single user content element contributes when it is
handled without raising. -/
def contentItemsU (c : Value) : List FlowItem :=
  match c with
  | Value.obj d =>
    if dmem d "toolResult" then
      match (dget? d "toolResult").getD Value.null with
      | Value.obj r =>
        [FlowItem.tool_result
          ⟨(dget? r "status").getD Value.null,
           (dget? r "content").getD (Value.arr [])⟩]
      | _ => []
    else []
  | _ => []

/-- The flow items a completed message contributes when it is handled
without raising. -/
def messageItems (message : Value) : List FlowItem :=
  match message with
  | Value.obj m =>
    if roleIs m "assistant" && dmem m "content" then
      match (dget? m "content").getD Value.null with
      | Value.arr cs => cs.flatMap contentItemsA
      | _ => []
    else if roleIs m "user" && dmem m "content" then
      match (dget? m "content").getD Value.null with
      | Value.arr cs => cs.flatMap contentItemsU
      | _ => []
    else []
  | _ => []

/-- The flow items one callback event contributes when it is handled without
raising: nothing for a text delta, a tool-call fragment, or an unrecognized
shape; the message items otherwise. -/
def eventItems (kwargs : Dict) : List FlowItem :=
  if ((dget? kwargs "data").getD Value.null).truthy then []
  else if dmem kwargs "current_tool_use" then []
  else if dmem kwargs "message" then
    messageItems ((dget? kwargs "message").getD Value.null)
  else []

/-- The raw text a single event appends to the aggregate text buffers. -/
def textDelta (kwargs : Dict) : String :=
  match dget? kwargs "data" with
  | some (Value.str s) => s
  | _ => ""

/-- The non-empty raw text deltas carried by a sequence of events, in
arrival order (an event matches the text-delta shape exactly when its
`data` field is a truthy string). -/
def textDeltas (events : List Dict) : List String :=
  events.filterMap (fun e =>
    if textDelta e == "" then none else some (textDelta e))

/-- Concatenation of a list of strings in order. -/
def cat : List String → String
  | [] => ""
  | s :: l => s ++ cat l

/-- Concatenation, in arrival order, of the raw text deltas of a sequence
of events. -/
def concatDeltas : List Dict → String
  | [] => ""
  | e :: es => textDelta e ++ concatDeltas es

/-- Appending a batch of flow items to the buffers together with their
denormalized tool-call and tool-result projections. -/
def addItems (b : Buffers) (items : List FlowItem) : Buffers :=
  { b with
    conversation_flow := b.conversation_flow ++ items,
    current_message_tools := b.current_message_tools ++ items.filterMap toolOf,
    current_message_results := b.current_message_results ++ items.filterMap resOf }

/-- Stated from the specification's words, for comparison with the code
(claim about `display_text`): the concatenation of every `TextChunk`
content of a flow, in order. -/
def specTextChunkConcat (flow : List FlowItem) : String :=
  cat (flow.filterMap (fun it =>
    match it with
    | FlowItem.text (Value.str s) => some s
    | _ => none))

/-- Stated from the specification's words, for comparison with the code
(legacy rendering): the grouping, for a stored assistant message, of the
plain display text first, then all legacy tool calls in original order,
then all legacy tool results in original order. -/
def spec_legacy_grouping (t : Turn) : List Instr :=
  (if t.content != "" then [Instr.write (Value.str t.content)] else []) ++
  (t.tools.getD []).flatMap
    (fun ti => [Instr.banner ti.name, Instr.expand, Instr.json ti.input]) ++
  (t.results.getD []).flatMap
    (fun ri => [replayResultBadge ri, Instr.expand] ++
      renderResultContent ri.content)

/-- The four events of the specification's concrete scenario (§8, item 6). -/
def scenarioEvents : List Dict :=
  [ [("data", Value.str "Let me check ")],
    [("data", Value.str "that.")],
    [("message", Value.obj
      [("role", Value.str "assistant"),
       ("content", Value.arr
         [Value.obj [("text", Value.str "Let me check that.")],
          Value.obj [("toolUse", Value.obj
            [("name", Value.str "calculator"),
             ("input", Value.obj [("expr", Value.str "2+2")]),
             ("toolUseId", Value.str "t1")])]])])],
    [("message", Value.obj
      [("role", Value.str "user"),
       ("content", Value.arr
         [Value.obj [("toolResult", Value.obj
           [("status", Value.str "success"),
            ("content", Value.arr [Value.obj [("text", Value.str "4")]])])]])])] ]

/-- The tool call of the concrete scenario. -/
def scenarioTool : ToolInfo :=
  ⟨Value.str "calculator", Value.obj [("expr", Value.str "2+2")], Value.str "t1"⟩

/-- The tool result of the concrete scenario. -/
def scenarioResult : ResultInfo :=
  ⟨Value.str "success", Value.arr [Value.obj [("text", Value.str "4")]]⟩

/-- An event carrying all three later shapes at once, used to witness C7. -/
def c7Event : Dict :=
  [("data", Value.str "x"),
   ("current_tool_use", Value.null),
   ("message", Value.obj
     [("role", Value.str "assistant"),
      ("content", Value.arr [Value.obj [("text", Value.str "ignored")]])])]

/-- The single assistant-message event of the C6 counterexample: a completed
text content element with no preceding raw deltas. -/
def c6Event : Dict :=
  [("message", Value.obj
    [("role", Value.str "assistant"),
     ("content", Value.arr [Value.obj [("text", Value.str "hello")]])])]

/-- A completed user message carrying one `toolResult` content element with
fields `r`, as delivered to the callback. -/
def toolResultEvent (r : Dict) : Dict :=
  [("message", Value.obj
    [("role", Value.str "user"),
     ("content", Value.arr [Value.obj [("toolResult", Value.obj r)]])])]

/-- The `result_info` record the callback stores for a `toolResult` with
fields `r`: the status verbatim (`Value.null` when absent), the content
verbatim (empty list when absent). -/
def storedResult (r : Dict) : ResultInfo :=
  ⟨(dget? r "status").getD Value.null, (dget? r "content").getD (Value.arr [])⟩

/-- The assistant-message event of the C3 counterexample: a `toolUse`
content element lacking the `name` field. -/
def c3Event : Dict :=
  [("message", Value.obj
    [("role", Value.str "assistant"),
     ("content", Value.arr [Value.obj [("toolUse", Value.obj
       [("input", Value.obj [("expr", Value.str "2+2")]),
        ("toolUseId", Value.str "t1")])]])])]

/-- The stored assistant message of the C4 counterexample: an empty — but
present — flow alongside populated legacy lists. -/
def c4EmptyFlowTurn : Turn :=
  { role := "assistant", content := "hi",
    conversation_flow := some [],
    tools := some [scenarioTool],
    results := some [scenarioResult] }

/-- A legacy-format stored message, used to witness the amended C4. -/
def c4LegacyTurn : Turn :=
  { role := "assistant", content := "hi",
    conversation_flow := none,
    tools := some [scenarioTool],
    results := some [scenarioResult] }

lemma addItems_nil (b : Buffers) : addItems b [] = b := by
  cases b
  simp [addItems]

lemma addItems_append (b : Buffers) (xs ys : List FlowItem) :
    addItems (addItems b xs) ys = addItems b (xs ++ ys) := by
  cases b
  simp [addItems, List.filterMap_append]

lemma processAssistantContent_ok (c : Value) (b b2 : Buffers)
    (h : processAssistantContent c b = Except.ok b2) :
    b2 = addItems b (contentItemsA c) := by
  cases b
  cases c <;> simp only [processAssistantContent] at h <;> try exact Except.noConfusion h
  case obj d =>
    unfold contentItemsA
    repeat' split at h
    all_goals simp_all [addItems, toolOf, resOf]

lemma processUserContent_ok (c : Value) (b b2 : Buffers)
    (h : processUserContent c b = Except.ok b2) :
    b2 = addItems b (contentItemsU c) := by
  cases b
  cases c <;> simp only [processUserContent] at h <;> try exact Except.noConfusion h
  case obj d =>
    unfold contentItemsU
    repeat' split at h
    all_goals simp_all [addItems, toolOf, resOf]

lemma foldContents_ok (f : Value → Buffers → Except PyErr Buffers)
    (itemf : Value → List FlowItem)
    (hstep : ∀ c b b2, f c b = Except.ok b2 → b2 = addItems b (itemf c)) :
    ∀ (cs : List Value) (b b2 : Buffers),
      foldContents f cs b = Except.ok b2 → b2 = addItems b (cs.flatMap itemf) := by
  intro cs
  induction cs with
  | nil =>
    intro b b2 h
    simp only [foldContents, Except.ok.injEq] at h
    subst h
    simp [addItems_nil]
  | cons c cs ih =>
    intro b b2 h
    simp only [foldContents] at h
    cases hf : f c b <;> rw [hf] at h
    · exact Except.noConfusion h
    case ok b1 =>
      have h1 := hstep c b b1 hf
      have h2 := ih b1 b2 h
      subst h1
      rw [h2, addItems_append]
      simp

lemma handleMessage_ok (msg : Value) (b b2 : Buffers)
    (h : handleMessage msg b = Except.ok b2) :
    b2 = addItems b (messageItems msg) := by
  cases msg <;> simp only [handleMessage] at h <;> try exact Except.noConfusion h
  case obj m =>
    unfold messageItems
    by_cases ha : roleIs m "assistant" && dmem m "content"
    · simp only [ha, if_true] at h ⊢
      unfold iterContents at h
      cases hv : (dget? m "content").getD Value.null <;> rw [hv] at h <;>
        try exact Except.noConfusion h
      rename_i cs
      exact foldContents_ok processAssistantContent contentItemsA
        processAssistantContent_ok cs b b2 h
    · by_cases hu : roleIs m "user" && dmem m "content"
      · simp only [ha, hu, if_false, if_true, Bool.false_eq_true] at h ⊢
        unfold iterContents at h
        cases hv : (dget? m "content").getD Value.null <;> rw [hv] at h <;>
          try exact Except.noConfusion h
        rename_i cs
        exact foldContents_ok processUserContent contentItemsU
          processUserContent_ok cs b b2 h
      · simp only [ha, hu, if_false, Bool.false_eq_true, Except.ok.injEq] at h ⊢
        subst h
        simp [addItems_nil]

lemma string_append_empty (s : String) : s ++ "" = s := String.append_empty s

lemma textDelta_of_falsy (kwargs : Dict)
    (h : ((dget? kwargs "data").getD Value.null).truthy = false) :
    textDelta kwargs = "" := by
  unfold textDelta
  cases hd : dget? kwargs "data"
  · rfl
  case some v =>
    cases v <;> try rfl
    case str s =>
      rw [hd] at h
      simp [Value.truthy] at h
      simp [h]

lemma callback_handler_ok (kwargs : Dict) (b b2 : Buffers)
    (h : callback_handler kwargs b = Except.ok b2) :
    b2 = { addItems b (eventItems kwargs) with
           accumulated_text := b.accumulated_text ++ textDelta kwargs,
           all_agent_text := b.all_agent_text ++ textDelta kwargs } := by
  unfold callback_handler at h
  unfold eventItems
  by_cases hd : ((dget? kwargs "data").getD Value.null).truthy = true
  · simp only [hd, if_true] at h ⊢
    cases hv : (dget? kwargs "data").getD Value.null <;> rw [hv] at h <;>
      try exact Except.noConfusion h
    rename_i s
    simp only [Except.ok.injEq] at h
    subst h
    have ht : textDelta kwargs = s := by
      cases hg : dget? kwargs "data" with
      | none =>
        rw [hg] at hv
        simp at hv
      | some v =>
        rw [hg] at hv
        simp at hv
        simp [textDelta, hg, hv]
    rw [ht, addItems_nil]
  · rw [Bool.not_eq_true] at hd
    have htd := textDelta_of_falsy kwargs hd
    simp only [hd, if_false, Bool.false_eq_true] at h ⊢
    by_cases hc : dmem kwargs "current_tool_use" = true
    · simp only [hc, if_true, Except.ok.injEq] at h ⊢
      subst h
      rw [htd, addItems_nil, string_append_empty, string_append_empty]
    · simp only [hc, if_false, Bool.false_eq_true] at h ⊢
      by_cases hm : dmem kwargs "message" = true
      · simp only [hm, if_true] at h ⊢
        have h2 := handleMessage_ok _ _ _ h
        rw [h2, htd]
        have ha : (addItems b (messageItems ((dget? kwargs "message").getD Value.null))).accumulated_text = b.accumulated_text := by
          cases b; rfl
        have hb : (addItems b (messageItems ((dget? kwargs "message").getD Value.null))).all_agent_text = b.all_agent_text := by
          cases b; rfl
        rw [string_append_empty, string_append_empty, ← ha, ← hb]
      · simp only [hm, if_false, Bool.false_eq_true, Except.ok.injEq] at h ⊢
        subst h
        rw [htd, addItems_nil, string_append_empty, string_append_empty]

lemma addItems_text_update (b : Buffers) (I X : List FlowItem) (A B : String) :
    addItems { addItems b I with accumulated_text := A, all_agent_text := B } X
      = { addItems b (I ++ X) with accumulated_text := A, all_agent_text := B } := by
  cases b
  simp [addItems, List.filterMap_append, List.append_assoc]

lemma processEvents_ok (events : List Dict) :
    ∀ (b b2 : Buffers), processEvents events b = (b2, none) →
      b2 = { addItems b (events.flatMap eventItems) with
             accumulated_text := b.accumulated_text ++ concatDeltas events,
             all_agent_text := b.all_agent_text ++ concatDeltas events } := by
  induction events with
  | nil =>
    intro b b2 h
    simp only [processEvents, Prod.mk.injEq] at h
    rw [← h.1]
    simp [addItems_nil, concatDeltas, string_append_empty]
  | cons e es ih =>
    intro b b2 h
    simp only [processEvents] at h
    cases hcb : callback_handler e b <;> rw [hcb] at h
    · simp at h
    case ok b1 =>
      have h1 := callback_handler_ok e b b1 hcb
      have h2 := ih b1 b2 h
      rw [h2, h1, addItems_text_update]
      simp [concatDeltas, String.append_assoc]

lemma str_append_eq_empty_left {s t : String} (h : s ++ t = "") : s = "" := by
  have hl := congrArg String.length h
  rw [String.length_append] at hl
  have h0 : ("" : String).length = 0 := rfl
  rw [h0] at hl
  have hs : s.length = 0 := by omega
  cases s with
  | mk d =>
    cases d with
    | nil => rfl
    | cons c cs => simp [String.length] at hs

lemma concatDeltas_eq_cat (events : List Dict) :
    concatDeltas events = cat (textDeltas events) := by
  induction events with
  | nil => rfl
  | cons e es ih =>
    simp only [concatDeltas, textDeltas, List.filterMap_cons]
    by_cases hs : textDelta e == ""
    · have hs2 : textDelta e = "" := by simpa using hs
      simp only [hs, if_true, hs2]
      rw [String.empty_append]
      exact ih
    · simp only [hs, if_false, Bool.false_eq_true, cat]
      rw [ih]
      rfl

lemma textDeltas_ne_empty (events : List Dict) :
    ∀ s ∈ textDeltas events, s ≠ "" := by
  intro s hs
  simp only [textDeltas, List.mem_filterMap] at hs
  obtain ⟨e, _, hf⟩ := hs
  by_cases h0 : textDelta e == ""
  · rw [if_pos h0] at hf
    exact Option.noConfusion hf
  · rw [if_neg h0] at hf
    have heq : textDelta e = s := by simpa using hf
    rw [← heq]
    simpa using h0

lemma cat_eq_empty_iff (l : List String) (hl : ∀ x ∈ l, x ≠ "") :
    (cat l = "" ↔ l = []) := by
  cases l with
  | nil => simp [cat]
  | cons s t =>
    simp only [cat]
    constructor
    · intro h
      exact absurd (str_append_eq_empty_left h) (hl s (by simp))
    · intro h
      exact List.noConfusion h

lemma dget?_none_of_not_dmem (d : Dict) (k : String) (h : dmem d k = false) :
    dget? d k = none := by
  unfold dmem at h
  unfold dget?
  cases hf : List.find? (fun p => p.1 == k) d
  · rfl
  · rw [hf] at h
    simp at h

/-- C1: every event sequence fed to the callback after a buffer reset and
processed without raising yields a flow log equal to the concatenation, in
arrival order, of each event's contributed items (never reordered or
deduplicated), and the denormalized tool-call and tool-result lists are
exactly the flow filtered to the corresponding variants, order-preserved. -/
theorem c1_flow_order_and_projections (events : List Dict) (b : Buffers)
    (h : processEvents events resetBuffers = (b, none)) :
    b.conversation_flow = events.flatMap eventItems ∧
    b.current_message_tools = b.conversation_flow.filterMap toolOf ∧
    b.current_message_results = b.conversation_flow.filterMap resOf := by
  have h2 := processEvents_ok events resetBuffers b h
  rw [h2]
  simp [addItems, resetBuffers]

/-- Witness for C1 at the concrete scenario event list. -/
theorem c1_witness :
    (processEvents scenarioEvents resetBuffers).1.conversation_flow
        = scenarioEvents.flatMap eventItems ∧
    (processEvents scenarioEvents resetBuffers).1.current_message_tools
        = (processEvents scenarioEvents resetBuffers).1.conversation_flow.filterMap toolOf ∧
    (processEvents scenarioEvents resetBuffers).1.current_message_results
        = (processEvents scenarioEvents resetBuffers).1.conversation_flow.filterMap resOf :=
  c1_flow_order_and_projections scenarioEvents
    (processEvents scenarioEvents resetBuffers).1 rfl

/-- C5: the specification's concrete scenario, fed through a full submission
cycle, finalizes to the expected transcript: display text from the two raw
deltas, the three-item flow in arrival order, and singleton denormalized
tool-call and tool-result lists. -/
theorem c5_concrete_scenario :
    chat_submission "What is 2+2?" scenarioEvents (Except.ok "Let me check that.")
        { messages := [], buffers := resetBuffers } =
      ({ messages :=
           [mkUserTurn "What is 2+2?",
            { role := "assistant",
              content := "Let me check that.",
              conversation_flow :=
                some [FlowItem.text (Value.str "Let me check that."),
                      FlowItem.tool_call scenarioTool,
                      FlowItem.tool_result scenarioResult],
              tools := some [scenarioTool],
              results := some [scenarioResult] }],
         buffers :=
           { accumulated_text := "Let me check that."
             current_message_tools := [scenarioTool]
             current_message_results := [scenarioResult]
             current_message_accumulated := ""
             all_agent_text := "Let me check that."
             conversation_flow :=
               [FlowItem.text (Value.str "Let me check that."),
                FlowItem.tool_call scenarioTool,
                FlowItem.tool_result scenarioResult] } }, none) := rfl

/-- C7: the callback dispatches on the first matching shape in the fixed
priority order raw text delta, tool-call fragment, completed message, no-op;
later shapes carried by the same event are ignored.  In particular an event
whose `data` field is a non-empty string only appends to the two aggregate
text buffers — no flow item — whatever other fields it carries. -/
theorem c7_dispatch_priority :
    (∀ (kwargs : Dict) (b : Buffers) (s : String),
        dget? kwargs "data" = some (Value.str s) → s ≠ "" →
        callback_handler kwargs b =
          Except.ok { b with accumulated_text := b.accumulated_text ++ s,
                             all_agent_text := b.all_agent_text ++ s }) ∧
    (∀ (kwargs : Dict) (b : Buffers),
        ((dget? kwargs "data").getD Value.null).truthy = false →
        dmem kwargs "current_tool_use" = true →
        callback_handler kwargs b = Except.ok b) ∧
    (∀ (kwargs : Dict) (b : Buffers),
        ((dget? kwargs "data").getD Value.null).truthy = false →
        dmem kwargs "current_tool_use" = false →
        dmem kwargs "message" = true →
        callback_handler kwargs b =
          handleMessage ((dget? kwargs "message").getD Value.null) b) ∧
    (∀ (kwargs : Dict) (b : Buffers),
        ((dget? kwargs "data").getD Value.null).truthy = false →
        dmem kwargs "current_tool_use" = false →
        dmem kwargs "message" = false →
        callback_handler kwargs b = Except.ok b) := by
  refine ⟨?_, ?_, ?_, ?_⟩
  · intro kwargs b s h1 h2
    simp [callback_handler, h1, Value.truthy, h2]
  · intro kwargs b h1 h2
    simp [callback_handler, h1, h2]
  · intro kwargs b h1 h2 h3
    simp [callback_handler, h1, h2, h3]
  · intro kwargs b h1 h2 h3
    simp [callback_handler, h1, h2, h3]

/-- Witness for C7: the combined event only feeds the text buffers. -/
theorem c7_witness :
    callback_handler c7Event resetBuffers =
      Except.ok { resetBuffers with
        accumulated_text := resetBuffers.accumulated_text ++ "x",
        all_agent_text := resetBuffers.all_agent_text ++ "x" } :=
  c7_dispatch_priority.1 c7Event resetBuffers "x" rfl (by decide)

/-- C8: the transcript is append-only across a whole submission cycle —
every previously appended message, with all of its fields, is still there
unchanged at its old position — and clearing replaces the transcript
wholesale by the empty sequence. -/
theorem c8_transcript_append_only :
    ∀ (prompt : String) (events : List Dict) (outcome : Except PyErr String)
      (s : AppState),
      ((chat_submission prompt events outcome s).1.messages.take
          s.messages.length = s.messages) ∧
      (clear_chat_history s).messages = [] := by
  intro prompt events outcome s
  constructor
  · unfold chat_submission
    cases processEvents events resetBuffers with
    | mk b opt =>
      cases opt with
      | none =>
        cases outcome <;> simp [List.append_assoc, List.take_left]
      | some err =>
        simp [List.take_left]
  · rfl

/-- C9: when the blocking agent invocation raises, the failure propagates
(the submission does not complete normally) and no assistant message is
appended: the transcript is exactly the prior transcript plus the
just-appended user message. -/
theorem c9_failure_appends_no_assistant_turn :
    ∀ (prompt : String) (events : List Dict) (err : PyErr) (s : AppState),
      (chat_submission prompt events (Except.error err) s).1.messages
          = s.messages ++ [mkUserTurn prompt] ∧
      (chat_submission prompt events (Except.error err) s).2 ≠ none := by
  intro prompt events err s
  unfold chat_submission
  cases processEvents events resetBuffers with
  | mk b opt =>
    cases opt <;> simp

lemma assistantContent_spec (events : List Dict) (b : Buffers) (resultStr : String)
    (h : processEvents events resetBuffers = (b, none)) :
    (mkAssistantTurn b resultStr).content =
      (if textDeltas events = [] then resultStr else cat (textDeltas events)) := by
  have hb := processEvents_ok events resetBuffers b h
  have hall : b.all_agent_text = concatDeltas events := by
    rw [hb]
    simp [resetBuffers, addItems, String.empty_append]
  simp only [mkAssistantTurn]
  rw [hall, concatDeltas_eq_cat]
  by_cases he : textDeltas events = []
  · simp [he, cat]
  · have hne : cat (textDeltas events) ≠ "" := by
      intro hc
      exact he ((cat_eq_empty_iff _ (textDeltas_ne_empty events)).mp hc)
    simp [he, hne]

/-- C2: after a successful submission cycle the finalized assistant
message's display text is the concatenation, in arrival order, of every
raw text delta received via the callback during that cycle; when no delta
was received it is the stringified agent return value. -/
theorem c2_display_text (prompt : String) (events : List Dict)
    (resultStr : String) (s s2 : AppState)
    (h : chat_submission prompt events (Except.ok resultStr) s = (s2, none)) :
    ∃ t, s2.messages.getLast? = some t ∧ t.role = "assistant" ∧
      t.content = (if textDeltas events = [] then resultStr
                   else cat (textDeltas events)) := by
  unfold chat_submission at h
  cases hpe : processEvents events resetBuffers with
  | mk b opt =>
    rw [hpe] at h
    cases opt with
    | some err => simp at h
    | none =>
      simp only [Prod.mk.injEq] at h
      obtain ⟨hs2, -⟩ := h
      refine ⟨mkAssistantTurn b resultStr, ?_, rfl, ?_⟩
      · rw [← hs2]
        exact List.getLast?_concat _
      · exact assistantContent_spec events b resultStr hpe

/-- Witness for C2 at a single-delta run. -/
theorem c2_witness :
    ∃ t, (chat_submission "q" [[("data", Value.str "hi")]] (Except.ok "res")
            { messages := [], buffers := resetBuffers }).1.messages.getLast?
          = some t ∧ t.role = "assistant" ∧
      t.content = (if textDeltas [[("data", Value.str "hi")]] = [] then "res"
                   else cat (textDeltas [[("data", Value.str "hi")]])) :=
  c2_display_text "q" [[("data", Value.str "hi")]] "res"
    { messages := [], buffers := resetBuffers }
    (chat_submission "q" [[("data", Value.str "hi")]] (Except.ok "res")
      { messages := [], buffers := resetBuffers }).1 rfl

/-- Counterexample to C6 as stated: a cycle that received a `TextChunk` flow
item (concatenation of the chunk contents is the non-empty string `hello`)
but no raw delta finalizes with display text equal to the stringified agent
return value `FINAL`, not to the chunk concatenation. -/
theorem c6_counterexample :
    specTextChunkConcat
        (processEvents [c6Event] resetBuffers).1.conversation_flow = "hello" ∧
    (mkAssistantTurn (processEvents [c6Event] resetBuffers).1 "FINAL").content
        = "FINAL" ∧
    ("FINAL" : String) ≠ "hello" :=
  ⟨rfl, rfl, by decide⟩

/-- C6 amended: the display text of a finalized assistant turn is the
concatenation of the raw text deltas received during the cycle — not of the
`TextChunk` flow items — with the stringified agent return value as the
fallback when no delta was received. -/
theorem c6_display_from_raw_deltas (events : List Dict) (b : Buffers)
    (resultStr : String) (h : processEvents events resetBuffers = (b, none)) :
    (mkAssistantTurn b resultStr).content =
      (if textDeltas events = [] then resultStr
       else cat (textDeltas events)) :=
  assistantContent_spec events b resultStr h

/-- Witness for the amended C6 at the delta-free counterexample run. -/
theorem c6_witness :
    (mkAssistantTurn (processEvents [c6Event] resetBuffers).1 "FINAL").content =
      (if textDeltas [c6Event] = [] then "FINAL"
       else cat (textDeltas [c6Event])) :=
  c6_display_from_raw_deltas [c6Event] (processEvents [c6Event] resetBuffers).1
    "FINAL" rfl

/-- Counterexample to C3 as stated: a `toolUse` content element missing its
`name` field makes the callback raise a `KeyError` instead of treating the
field as absent. -/
theorem c3_counterexample :
    callback_handler c3Event resetBuffers
      = Except.error (PyErr.keyError "name") := rfl

/-- C3 amended: malformed `toolResult` elements are tolerated — a missing
`status` or `content` is stored as absent/empty and the turn continues —
and events carrying none of the recognized shapes are ignored; but a
`toolUse` content element lacking `name` (likewise `input` or `toolUseId`)
raises a `KeyError`. -/
theorem c3_malformed_events :
    (∀ (r : Dict) (b : Buffers),
        callback_handler (toolResultEvent r) b
          = Except.ok (addItems b [FlowItem.tool_result (storedResult r)])) ∧
    (∀ (inp tid : Value) (b : Buffers),
        callback_handler
          [("message", Value.obj
            [("role", Value.str "assistant"),
             ("content", Value.arr [Value.obj [("toolUse", Value.obj
               [("input", inp), ("toolUseId", tid)])]])])] b
          = Except.error (PyErr.keyError "name")) ∧
    (∀ (kwargs : Dict) (b : Buffers),
        dmem kwargs "data" = false → dmem kwargs "current_tool_use" = false →
        dmem kwargs "message" = false →
        callback_handler kwargs b = Except.ok b) := by
  refine ⟨?_, ?_, ?_⟩
  · intro r b
    cases b
    simp [callback_handler, handleMessage, iterContents, foldContents,
      processUserContent, toolResultEvent, storedResult, addItems,
      dmem, dget?, roleIs, toolOf, resOf, List.find?, Value.truthy]
  · intro inp tid b
    rfl
  · intro kwargs b h1 h2 h3
    have hd := dget?_none_of_not_dmem kwargs "data" h1
    simp [callback_handler, hd, Value.truthy, h2, h3]

/-- Witness for the amended C3: a `toolResult` with no `status` and no
`content` is stored with a null status and empty content, and an empty
event is a no-op. -/
theorem c3_witness :
    callback_handler (toolResultEvent []) resetBuffers
      = Except.ok (addItems resetBuffers [FlowItem.tool_result (storedResult [])]) ∧
    callback_handler [] resetBuffers = Except.ok resetBuffers :=
  ⟨c3_malformed_events.1 [] resetBuffers,
   c3_malformed_events.2.2 [] resetBuffers rfl rfl rfl⟩

/-- Counterexample to C4 as stated: an assistant message whose flow field is
present but empty renders no instruction at all, even though its legacy
lists are populated; the claimed text-calls-results grouping (seven
instructions here) is not produced. -/
theorem c4_counterexample :
    renderTurn c4EmptyFlowTurn = [] ∧
    (spec_legacy_grouping c4EmptyFlowTurn).length = 7 ∧
    (renderTurn c4EmptyFlowTurn).length ≠ (spec_legacy_grouping c4EmptyFlowTurn).length :=
  ⟨rfl, rfl, by decide⟩

/-- C4 amended: the legacy grouping applies to assistant messages that lack
the flow field altogether (the legacy format): they render as the plain
display text (when non-empty) first, then all tool calls in original order,
then all tool results in original order. -/
theorem c4_legacy_grouping (t : Turn) (h1 : t.role = "assistant")
    (h2 : t.conversation_flow = none) :
    renderTurn t = spec_legacy_grouping t := by
  cases ht : t.tools <;> cases hr : t.results <;>
    simp [renderTurn, spec_legacy_grouping, h1, h2, ht, hr]

/-- Witness for the amended C4 at a concrete legacy message. -/
theorem c4_witness :
    renderTurn c4LegacyTurn = spec_legacy_grouping c4LegacyTurn :=
  c4_legacy_grouping c4LegacyTurn rfl rfl

lemma isSuccess_iff (v : Value) : isSuccess v = true ↔ v = Value.str "success" := by
  cases v <;> simp [isSuccess]

/-- C10: the callback stores the `toolResult` status verbatim (an absent
status becomes the null value, with no normalization), and both the live
badge and the replay badge show success exactly when the stored status is
the string `success` — every other value, the absent status included, shows
the error badge. -/
theorem c10_status_verbatim_and_badges :
    ∀ (r : Dict) (b : Buffers),
      callback_handler (toolResultEvent r) b
          = Except.ok (addItems b [FlowItem.tool_result (storedResult r)]) ∧
      (storedResult r).status = (dget? r "status").getD Value.null ∧
      (liveResultBadge r = Instr.success ↔
        (dget? r "status").getD Value.null = Value.str "success") ∧
      (replayResultBadge (storedResult r) = Instr.success ↔
        (dget? r "status").getD Value.null = Value.str "success") := by
  intro r b
  refine ⟨?_, rfl, ?_, ?_⟩
  · cases b
    simp [callback_handler, handleMessage, iterContents, foldContents,
      processUserContent, toolResultEvent, storedResult, addItems,
      dmem, dget?, roleIs, toolOf, resOf, List.find?, Value.truthy]
  · unfold liveResultBadge
    by_cases hs : isSuccess ((dget? r "status").getD Value.null)
    · simp [hs, (isSuccess_iff _).mp hs, isSuccess]
    · rw [if_neg hs]
      simp only [Bool.not_eq_true] at hs
      constructor
      · intro hc
        exact Instr.noConfusion hc
      · intro hc
        rw [← isSuccess_iff] at hc
        rw [hs] at hc
        exact Bool.noConfusion hc
  · unfold replayResultBadge
    have hst : (storedResult r).status = (dget? r "status").getD Value.null := rfl
    rw [hst]
    by_cases hs : isSuccess ((dget? r "status").getD Value.null)
    · simp [hs, (isSuccess_iff _).mp hs, isSuccess]
    · rw [if_neg hs]
      simp only [Bool.not_eq_true] at hs
      constructor
      · intro hc
        exact Instr.noConfusion hc
      · intro hc
        rw [← isSuccess_iff] at hc
        rw [hs] at hc
        exact Bool.noConfusion hc

/-- Witness for C10 at a `toolResult` with an absent status field. -/
theorem c10_witness :
    callback_handler (toolResultEvent [("content", Value.arr [])]) resetBuffers
        = Except.ok (addItems resetBuffers
            [FlowItem.tool_result (storedResult [("content", Value.arr [])])]) ∧
    (storedResult [("content", Value.arr [])]).status
        = (dget? [("content", Value.arr [])] "status").getD Value.null ∧
    (liveResultBadge [("content", Value.arr [])] = Instr.success ↔
      (dget? [("content", Value.arr [])] "status").getD Value.null
        = Value.str "success") ∧
    (replayResultBadge (storedResult [("content", Value.arr [])]) = Instr.success ↔
      (dget? [("content", Value.arr [])] "status").getD Value.null
        = Value.str "success") :=
  c10_status_verbatim_and_badges [("content", Value.arr [])] resetBuffers
